import Mathlib

/-!
Verification of the `ModeButton` component of the speed-gun repository
(src/VelocitySensor/ModeButton.h).

The header declares a two-state press/lock/unlock machine guarding a shared
integer `mode`.  The method bodies live in a ModeButton.cpp that is not part
of the source tree, so the transition function below is modelled from the
specification (sections 3 and 4.1 of spec.md), which agrees with the
semantics stated in the header comments at ModeButton.h lines 11-12.

Hardware pin reads (`isPressed()`) are modelled by passing the boolean the
pin would read as an explicit argument to `check`, and the process-wide
`int mode` global is threaded explicitly through every call.
-/

/-- The `ModeButton` object: `pin` (immutable pin identifier), `btnMode`
(the mode value this button selects), and the mutable debounce flag
`isLocked`.  Mirrors the private members at ModeButton.h lines 18-26. -/
structure ModeButton where
  pin : Int
  btnMode : Int
  isLocked : Bool
deriving DecidableEq, Repr

namespace ModeButton

/-- Modelled from the spec: the constructor `ModeButton(int p, int m)`
(body absent from src/).  "takes a pin identifier and a mode value; stores
both; initializes `isLocked` to false." -/
def mkButton (p m : Int) : ModeButton :=
  { pin := p, btnMode := m, isLocked := false }

/-- Modelled from the spec: `toggleMode()` (body absent from src/).
"sets the shared mode variable to this button's configured `btnMode`."
The shared `mode` is passed in and the new value of `mode` is returned;
the old value is ignored because the write is unconditional. -/
def toggleMode (b : ModeButton) (_mode : Int) : Int :=
  b.btnMode

/-- Modelled from the spec: `check()` (body absent from src/).
Two-state machine, per spec section 4.1 and the header comments:
in UNLOCKED state a pressed pin locks the button, writes `btnMode` to the
shared `mode` and returns true; otherwise nothing changes and it returns
false.  In LOCKED state a released pin unlocks the button; either way the
return is false and `mode` is untouched.  `pressed` is the value
`isPressed()` reads from the pin during this call.  Returns
(return value, updated button, updated shared mode). -/
def check (b : ModeButton) (pressed : Bool) (mode : Int) :
    Bool × ModeButton × Int :=
  if !b.isLocked && pressed then
    (true, { b with isLocked := true }, b.toggleMode mode)
  else if b.isLocked && !pressed then
    (false, { b with isLocked := false }, mode)
  else
    (false, b, mode)

/-- Repeated polling: run `check` over a list of successive pin readings,
threading the button state and the shared `mode`; collects the list of
return values. -/
def runChecks (b : ModeButton) (mode : Int) :
    List Bool → List Bool × ModeButton × Int
  | [] => ([], b, mode)
  | p :: ps =>
    let r := check b p mode
    let rest := runChecks r.2.1 r.2.2 ps
    (r.1 :: rest.1, rest.2.1, rest.2.2)

end ModeButton

/-- A system of two `ModeButton` instances sharing the global `mode`,
polled in a fixed order (A first, then B) within each tick. -/
structure TwoButtonSystem where
  btnA : ModeButton
  btnB : ModeButton
  mode : Int
deriving DecidableEq, Repr

namespace TwoButtonSystem

/-- Poll button A only: calls `check` on A with pin reading `pa`,
leaving button B untouched (mirrors a single `a.check()` call). -/
def pollA (s : TwoButtonSystem) (pa : Bool) : Bool × TwoButtonSystem :=
  let r := s.btnA.check pa s.mode
  (r.1, { s with btnA := r.2.1, mode := r.2.2 })

/-- Poll button B only. -/
def pollB (s : TwoButtonSystem) (pb : Bool) : Bool × TwoButtonSystem :=
  let r := s.btnB.check pb s.mode
  (r.1, { s with btnB := r.2.1, mode := r.2.2 })

/-- One poll tick: A's `check` is called, then B's, in that fixed order. -/
def tick (s : TwoButtonSystem) (pa pb : Bool) : TwoButtonSystem :=
  ((s.pollA pa).2.pollB pb).2

end TwoButtonSystem

/-! ## Helper lemmas (shared) -/

/-- Unfolding lemma: polling an empty reading list does nothing. -/
theorem runChecks_nil (b : ModeButton) (m : Int) :
    ModeButton.runChecks b m [] = ([], b, m) := rfl

/-- Unfolding lemma: polling a cons performs one `check` and recurses on
the resulting button state and shared mode. -/
theorem runChecks_cons (b : ModeButton) (m : Int) (p : Bool) (ps : List Bool) :
    ModeButton.runChecks b m (p :: ps)
      = ((ModeButton.check b p m).1
           :: (ModeButton.runChecks (ModeButton.check b p m).2.1
                 (ModeButton.check b p m).2.2 ps).1,
         (ModeButton.runChecks (ModeButton.check b p m).2.1
            (ModeButton.check b p m).2.2 ps).2.1,
         (ModeButton.runChecks (ModeButton.check b p m).2.1
            (ModeButton.check b p m).2.2 ps).2.2) := rfl

/-- While the button is held LOCKED, every further pressed poll returns
false and changes nothing, and the final released poll returns false and
unlocks; the shared mode is never written during this tail. -/
theorem runChecks_locked_hold (b : ModeButton) (m : Int) (k : Nat)
    (h : b.isLocked = true) :
    ModeButton.runChecks b m (List.replicate k true ++ [false])
      = (List.replicate (k + 1) false, { b with isLocked := false }, m) := by
  induction k generalizing b with
  | zero =>
    simp [runChecks_cons, runChecks_nil, ModeButton.check, h]
  | succ k ih =>
    have step : ModeButton.check b true m = (false, b, m) := by
      simp [ModeButton.check, h]
    rw [List.replicate_succ, List.cons_append, runChecks_cons, step]
    simp [ih b h, List.replicate_succ]

/-! ## Claim theorems -/

/-- C1: starting UNLOCKED, a press-and-hold episode of n ≥ 1 pressed polls
followed by one released poll yields true on the first call and false on
every subsequent call; e.g. [pressed, pressed, pressed, released] returns
[true, false, false, false]. -/
theorem check_one_toggle_per_hold (b : ModeButton) (m : Int) (n : Nat)
    (hu : b.isLocked = false) (hn : 0 < n) :
    (ModeButton.runChecks b m (List.replicate n true ++ [false])).1
      = true :: List.replicate n false := by
  obtain ⟨k, rfl⟩ : ∃ k, n = k + 1 := ⟨n - 1, (Nat.succ_pred_eq_of_pos hn).symm⟩
  have step : ModeButton.check b true m
      = (true, { b with isLocked := true }, b.btnMode) := by
    simp [ModeButton.check, ModeButton.toggleMode, hu]
  rw [List.replicate_succ, List.cons_append, runChecks_cons, step]
  simp [runChecks_locked_hold { b with isLocked := true } b.btnMode k rfl,
    List.replicate_succ]

/-- Witness for C1 at a concrete button (pin 2, btnMode 5), initial mode 0
and hold length 3: this is exactly the [pressed, pressed, pressed, released]
case of the spec. -/
theorem check_one_toggle_per_hold_witness :
    (ModeButton.mkButton 2 5).isLocked = false ∧ 0 < 3 ∧
    (ModeButton.runChecks (ModeButton.mkButton 2 5) 0
        (List.replicate 3 true ++ [false])).1
      = true :: List.replicate 3 false :=
  ⟨rfl, by decide, check_one_toggle_per_hold (ModeButton.mkButton 2 5) 0 3 rfl (by decide)⟩

/-- C2: in the UNLOCKED state, a pressed poll locks the button, writes
btnMode to the shared mode and returns true; a released poll changes
nothing and returns false. -/
theorem check_unlocked_step (b : ModeButton) (p : Bool) (m : Int)
    (hu : b.isLocked = false) :
    (p = true →
      ModeButton.check b p m = (true, { b with isLocked := true }, b.btnMode)) ∧
    (p = false → ModeButton.check b p m = (false, b, m)) := by
  cases p <;>
    simp [ModeButton.check, ModeButton.toggleMode, hu]

/-- Witness for C2 at the concrete button (pin 7, btnMode 1) with mode 9,
in both the pressed and the released branch. -/
theorem check_unlocked_step_witness :
    (ModeButton.mkButton 7 1).isLocked = false ∧
    ModeButton.check (ModeButton.mkButton 7 1) true 9
      = (true, { ModeButton.mkButton 7 1 with isLocked := true },
          (ModeButton.mkButton 7 1).btnMode) ∧
    ModeButton.check (ModeButton.mkButton 7 1) false 9
      = (false, ModeButton.mkButton 7 1, 9) :=
  ⟨rfl,
   (check_unlocked_step (ModeButton.mkButton 7 1) true 9 rfl).1 rfl,
   (check_unlocked_step (ModeButton.mkButton 7 1) false 9 rfl).2 rfl⟩

/-- C3: in the LOCKED state, check() returns false and leaves the shared
mode untouched whatever the pin reads; a released pin unlocks the button,
a pressed pin leaves it locked. -/
theorem check_locked_step (b : ModeButton) (p : Bool) (m : Int)
    (hl : b.isLocked = true) :
    (ModeButton.check b p m).1 = false ∧
    (ModeButton.check b p m).2.2 = m ∧
    (p = false → (ModeButton.check b p m).2.1.isLocked = false) ∧
    (p = true → (ModeButton.check b p m).2.1.isLocked = true) := by
  cases p <;>
    simp [ModeButton.check, hl]

/-- Witness for C3 at a concrete locked button (pin 7, btnMode 1, locked)
with mode 9, in both the released and the still-pressed branch. -/
theorem check_locked_step_witness :
    ({ pin := 7, btnMode := 1, isLocked := true } : ModeButton).isLocked = true ∧
    ((ModeButton.check { pin := 7, btnMode := 1, isLocked := true } false 9).1 = false ∧
     (ModeButton.check { pin := 7, btnMode := 1, isLocked := true } false 9).2.2 = 9 ∧
     (ModeButton.check { pin := 7, btnMode := 1, isLocked := true } false 9).2.1.isLocked = false) ∧
    ((ModeButton.check { pin := 7, btnMode := 1, isLocked := true } true 9).1 = false ∧
     (ModeButton.check { pin := 7, btnMode := 1, isLocked := true } true 9).2.1.isLocked = true) :=
  ⟨rfl,
   ⟨(check_locked_step _ false 9 rfl).1, (check_locked_step _ false 9 rfl).2.1,
    (check_locked_step _ false 9 rfl).2.2.1 rfl⟩,
   ⟨(check_locked_step _ true 9 rfl).1, (check_locked_step _ true 9 rfl).2.2.2 rfl⟩⟩

/-- C4: whenever check() returns true, the shared mode immediately after
the call equals the button's configured btnMode exactly. -/
theorem check_true_mode_is_btnMode (b : ModeButton) (p : Bool) (m : Int)
    (h : (ModeButton.check b p m).1 = true) :
    (ModeButton.check b p m).2.2 = b.btnMode := by
  cases p <;> cases hb : b.isLocked <;>
    simp_all [ModeButton.check, ModeButton.toggleMode]

/-- Witness for C4 at a fresh button (pin 4, btnMode 3) pressed with
initial mode 11. -/
theorem check_true_mode_is_btnMode_witness :
    (ModeButton.check (ModeButton.mkButton 4 3) true 11).1 = true ∧
    (ModeButton.check (ModeButton.mkButton 4 3) true 11).2.2
      = (ModeButton.mkButton 4 3).btnMode :=
  ⟨by decide, check_true_mode_is_btnMode (ModeButton.mkButton 4 3) true 11 (by decide)⟩

/-- C5: the lock-flag invariant — at construction isLocked is false, and
after any single check() call, isLocked equals exactly the value the pin
read (isPressed) during that call. -/
theorem isLocked_invariant (p m : Int) (b : ModeButton) (pr : Bool) (mo : Int) :
    (ModeButton.mkButton p m).isLocked = false ∧
    (ModeButton.check b pr mo).2.1.isLocked = pr := by
  refine ⟨rfl, ?_⟩
  cases pr <;> cases hb : b.isLocked <;>
    simp [ModeButton.check, hb]

/-- C6: release re-arms — from UNLOCKED, the reading sequence
[pressed, released, pressed] yields the return sequence
[true, false, true]. -/
theorem check_release_rearms (b : ModeButton) (m : Int)
    (hu : b.isLocked = false) :
    (ModeButton.runChecks b m [true, false, true]).1 = [true, false, true] := by
  simp [runChecks_cons, runChecks_nil, ModeButton.check, ModeButton.toggleMode, hu]

/-- Witness for C6 at the concrete button (pin 2, btnMode 5), mode 0. -/
theorem check_release_rearms_witness :
    (ModeButton.mkButton 2 5).isLocked = false ∧
    (ModeButton.runChecks (ModeButton.mkButton 2 5) 0 [true, false, true]).1
      = [true, false, true] :=
  ⟨rfl, check_release_rearms (ModeButton.mkButton 2 5) 0 rfl⟩

/-- C7: if the pin never reads pressed, every check() returns false, the
button state is unchanged, and the shared mode is never written. -/
theorem check_never_pressed_no_write (b : ModeButton) (m : Int) (n : Nat)
    (hu : b.isLocked = false) :
    ModeButton.runChecks b m (List.replicate n false)
      = (List.replicate n false, b, m) := by
  induction n with
  | zero => simp [runChecks_nil]
  | succ n ih =>
    have step : ModeButton.check b false m = (false, b, m) := by
      simp [ModeButton.check, hu]
    rw [List.replicate_succ, runChecks_cons, step]
    simp [ih, List.replicate_succ]

/-- Witness for C7: [released, released, released] at the concrete button
(pin 2, btnMode 5) with mode 42 yields [false, false, false] and leaves
button and mode untouched. -/
theorem check_never_pressed_no_write_witness :
    (ModeButton.mkButton 2 5).isLocked = false ∧
    ModeButton.runChecks (ModeButton.mkButton 2 5) 42 (List.replicate 3 false)
      = (List.replicate 3 false, ModeButton.mkButton 2 5, 42) :=
  ⟨rfl, check_never_pressed_no_write (ModeButton.mkButton 2 5) 42 3 rfl⟩

/-- C8: two-button tick, A polled before B. If A reads pressed (A
unlocked) and B reads released, the tick ends with mode = A's btnMode and
B's poll did not write mode; if both read pressed (both unlocked), the
tick ends with mode = B's btnMode, B being polled last. -/
theorem two_button_tick_mode (s : TwoButtonSystem)
    (hA : s.btnA.isLocked = false) :
    ((s.tick true false).mode = s.btnA.btnMode ∧
     (((s.pollA true).2.pollB false).2.mode = (s.pollA true).2.mode)) ∧
    (s.btnB.isLocked = false → (s.tick true true).mode = s.btnB.btnMode) := by
  refine ⟨⟨?_, ?_⟩, fun hB => ?_⟩ <;>
    cases hb : s.btnB.isLocked <;>
      simp_all [TwoButtonSystem.tick, TwoButtonSystem.pollA,
        TwoButtonSystem.pollB, ModeButton.check, ModeButton.toggleMode, hA]

/-- Witness for C8 at a concrete system: A = (pin 2, btnMode 5) and
B = (pin 3, btnMode 8), both unlocked, initial mode 0. -/
theorem two_button_tick_mode_witness :
    (ModeButton.mkButton 2 5).isLocked = false ∧
    (((TwoButtonSystem.mk (ModeButton.mkButton 2 5) (ModeButton.mkButton 3 8) 0).tick
        true false).mode = 5 ∧
     ((TwoButtonSystem.mk (ModeButton.mkButton 2 5) (ModeButton.mkButton 3 8) 0).tick
        true true).mode = 8) :=
  ⟨rfl,
   (two_button_tick_mode
      (TwoButtonSystem.mk (ModeButton.mkButton 2 5) (ModeButton.mkButton 3 8) 0) rfl).1.1,
   (two_button_tick_mode
      (TwoButtonSystem.mk (ModeButton.mkButton 2 5) (ModeButton.mkButton 3 8) 0) rfl).2 rfl⟩

/-- C9: state independence across instances — polling A leaves B's record
(its isLocked flag, pin and btnMode) completely unchanged, whatever A's
pin read and whatever toggle A performed. -/
theorem pollA_preserves_btnB (s : TwoButtonSystem) (pa : Bool) :
    (s.pollA pa).2.btnB = s.btnB ∧
    (s.pollA pa).2.btnB.isLocked = s.btnB.isLocked ∧
    (s.pollA pa).2.btnB.pin = s.btnB.pin ∧
    (s.pollA pa).2.btnB.btnMode = s.btnB.btnMode :=
  ⟨rfl, rfl, rfl, rfl⟩

/-- C10: noninterference from the shared mode — two check() runs agreeing
on the button and the pin reading but starting from different mode values
return the same boolean, produce the same button state, and each run's
final mode is btnMode when the return is true and that run's own initial
mode otherwise. -/
theorem check_noninterference_mode (b : ModeButton) (p : Bool) (m₁ m₂ : Int) :
    (ModeButton.check b p m₁).1 = (ModeButton.check b p m₂).1 ∧
    (ModeButton.check b p m₁).2.1 = (ModeButton.check b p m₂).2.1 ∧
    (ModeButton.check b p m₁).2.2
      = (if (ModeButton.check b p m₁).1 then b.btnMode else m₁) ∧
    (ModeButton.check b p m₂).2.2
      = (if (ModeButton.check b p m₂).1 then b.btnMode else m₂) := by
  cases p <;> cases hb : b.isLocked <;>
    simp [ModeButton.check, ModeButton.toggleMode, hb]
